import Mathlib

/-!
Shallow embedding of the edu-chatbot repository
(`aws_secrets_initialization.py`, `chat_retrieval.py`, `chat_st.py`)
with proofs about its retrieval pipeline, display logic, history-store
wiring, feedback flow and secret initialization.

External collaborators (Pinecone vector search, the Cohere reranker, the
LLM) live behind narrow interfaces and are modelled as parameters or from
their contracts in the specification; everything else is translated
directly from the Python source.
-/

namespace EduChatbot

/-! ## Data model: documents and their metadata

A LangChain document carries a `metadata` dict.  The fields the code reads
(`title`, `page`, `source`, `relevance_score`) are modelled as optional
fields: `none` models an absent dict key, and `Option.getD` models the
Python `dict.get(key, default)`. -/

structure DocMetadata where
  title : Option String := none
  page : Option String := none
  source : Option String := none
  relevance_score : Option ℚ := none
  deriving DecidableEq

structure Document where
  page_content : String := ""
  metadata : DocMetadata := {}
  deriving DecidableEq

/-! ## Source-URI normalization (`chat_st.py`, line 71)

`metadata.get('source', '').replace('s3://', 'https://s3.amazonaws.com/')`.

The Python `str.replace` scans left to right and replaces **every**
non-overlapping occurrence of the pattern, not only a leading one.
`s3replace` is that scan, specialised to the fixed pattern `"s3://"` and
replacement `"https://s3.amazonaws.com/"` used by the code. -/

def httpsRepl : List Char := "https://s3.amazonaws.com/".toList

def s3replace : List Char → List Char
  | 's' :: '3' :: ':' :: '/' :: '/' :: rest => httpsRepl ++ s3replace rest
  | c :: rest => c :: s3replace rest
  | [] => []

/-- String-level view of the `.replace` call on a raw source value. -/
def normalizeSource (s : String) : String :=
  String.mk (s3replace s.toList)

/-- Whether the pattern `"s3://"` occurs anywhere in the character list. -/
def hasS3 : List Char → Bool
  | 's' :: '3' :: ':' :: '/' :: '/' :: _ => true
  | _ :: rest => hasS3 rest
  | [] => false

lemma hasS3_cons_of_ne (c : Char) (rest : List Char)
    (hne : ∀ rest1 : List Char, c = 's' → rest = '3' :: ':' :: '/' :: '/' :: rest1 → False) :
    hasS3 (c :: rest) = hasS3 rest := by
  rw [hasS3.eq_def]
  split
  · rename_i rest1 heq2
    injection heq2 with h1 h2
    exact (hne rest1 h1 h2).elim
  · rename_i heq2
    injection heq2 with h1 h2
    rw [h2]
  · rename_i heq2
    exact absurd heq2 (by simp)

lemma s3replace_cons_of_ne (c : Char) (rest : List Char)
    (hne : ∀ rest1 : List Char, c = 's' → rest = '3' :: ':' :: '/' :: '/' :: rest1 → False) :
    s3replace (c :: rest) = c :: s3replace rest := by
  rw [s3replace.eq_def]
  split
  · rename_i rest1 heq2
    injection heq2 with h1 h2
    exact (hne rest1 h1 h2).elim
  · rename_i heq2
    injection heq2 with h1 h2
    rw [h1, h2]
  · rename_i heq2
    exact absurd heq2 (by simp)

/-- On input containing no occurrence of the pattern, the replace scan is
the identity. -/
lemma s3replace_of_not_hasS3 : ∀ l : List Char, hasS3 l = false → s3replace l = l := by
  intro l
  induction l using s3replace.induct with
  | case1 rest ih => intro h; simp [hasS3] at h
  | case2 c rest hne ih =>
    intro h
    rw [hasS3_cons_of_ne c rest hne] at h
    rw [s3replace_cons_of_ne c rest hne, ih h]
  | case3 => intro _; rfl

/-! ## Search-result formatting (`chat_st.py`, lines 58-79)

`format_search_results_as_dataframe` builds one row per document, in
order, with `dict.get` defaults for each missing metadata key and the raw
relevance score scaled by 100 for percentage display. -/

structure ResultRow where
  title : String
  page : String
  source : String
  relevanceScore : ℚ
  deriving DecidableEq

def formatRow (document : Document) : ResultRow :=
  { title := document.metadata.title.getD ""
    page := document.metadata.page.getD ""
    source := normalizeSource (document.metadata.source.getD "")
    relevanceScore := document.metadata.relevance_score.getD 0 * 100 }

def format_search_results_as_dataframe (documents : List Document) : List ResultRow :=
  documents.map formatRow

end EduChatbot

namespace EduChatbot

/-- C3 (counterexample): the raw source `"s3://a/s3://b"` begins with the
scheme prefix `"s3://"` with remainder `"a/s3://b"`, yet the normalized
source displayed for it is not the HTTPS prefix followed by that remainder
verbatim: the Python `str.replace` also rewrites the second, interior
occurrence of `"s3://"`. -/
theorem C3_normalized_source_counterexample :
    "s3://a/s3://b" = "s3://" ++ "a/s3://b" ∧
    (formatRow { page_content := "", metadata := { source := some "s3://a/s3://b" } }).source ≠
      "https://s3.amazonaws.com/" ++ "a/s3://b" ∧
    (formatRow { page_content := "", metadata := { source := some "s3://a/s3://b" } }).source =
      "https://s3.amazonaws.com/a/https://s3.amazonaws.com/b" := by
  refine ⟨rfl, ?_, ?_⟩ <;> decide

/-- C3 (amended): normalization replaces every occurrence of `"s3://"` by
`"https://s3.amazonaws.com/"`; in particular, when the raw source begins
with `"s3://"` and the remainder contains no further occurrence of
`"s3://"`, exactly the leading scheme prefix is replaced and the remainder
is preserved verbatim. -/
theorem C3_normalized_source_amended (rest : String) (h : hasS3 rest.toList = false) :
    normalizeSource ("s3://" ++ rest) = "https://s3.amazonaws.com/" ++ rest := by
  apply String.ext
  show s3replace ('s' :: '3' :: ':' :: '/' :: '/' :: rest.data) = httpsRepl ++ rest.data
  rw [show s3replace ('s' :: '3' :: ':' :: '/' :: '/' :: rest.data) =
        httpsRepl ++ s3replace rest.data from rfl,
    s3replace_of_not_hasS3 rest.data h]

/-- C3 (witness): the amended statement applied to the concrete remainder
`"bucket/guide.pdf"`. -/
theorem C3_normalized_source_amended_witness :
    hasS3 "bucket/guide.pdf".toList = false ∧
    normalizeSource ("s3://" ++ "bucket/guide.pdf") =
      "https://s3.amazonaws.com/" ++ "bucket/guide.pdf" :=
  ⟨by decide, C3_normalized_source_amended "bucket/guide.pdf" (by decide)⟩

/-- C9: formatting search results is total and structure-preserving: one
row per document in input order; a missing title, page or source defaults
to the empty string, a missing relevance score defaults to 0, and the
displayed relevance score is 100 times the raw score. -/
theorem C9_format_search_results_spec (documents : List Document) :
    (format_search_results_as_dataframe documents).length = documents.length ∧
    (∀ i : Nat, (format_search_results_as_dataframe documents)[i]? =
      documents[i]?.map formatRow) ∧
    (∀ d : Document, d.metadata = ⟨none, none, none, none⟩ →
      formatRow d = { title := "", page := "", source := "", relevanceScore := 0 }) ∧
    (∀ d : Document, ∀ q : ℚ, d.metadata.relevance_score = some q →
      (formatRow d).relevanceScore = q * 100) := by
  refine ⟨List.length_map _ _, fun i => List.getElem?_map .., ?_, ?_⟩
  · intro d hd
    simp [formatRow, hd, normalizeSource, s3replace]
  · intro d q hq
    simp [formatRow, hq]

/-- C9 (witness): a document with empty metadata yields the default row,
and a present relevance score is scaled by 100. -/
theorem C9_format_search_results_witness :
    formatRow { page_content := "x", metadata := ⟨none, none, none, none⟩ } =
      { title := "", page := "", source := "", relevanceScore := 0 } ∧
    (formatRow { page_content := "y"
                 metadata := ⟨none, none, none, some (1 / 2)⟩ }).relevanceScore = 1 / 2 * 100 :=
  ⟨(C9_format_search_results_spec []).2.2.1 _ rfl,
   (C9_format_search_results_spec []).2.2.2 _ (1 / 2) rfl⟩

end EduChatbot

namespace EduChatbot

/-! ## Agent steps and response display (`chat_st.py`, lines 82-96 and 125-144)

An intermediate step of the agent is a pair `(action, observation)`: the
action carries `tool`, `tool_input` and `log`; the observation of the
retrieval tool is its typed payload, a list of Documents.
`render_intermediate_steps` loops over `steps.get(str(index), [])` and
skips any step whose tool name is `"_Exception"`.
`display_chat_response` writes the output text, then reads
`response["intermediate_steps"][0][1]` — the first step regardless of its
tool name — and renders the sources table from it; only when the step list
is empty does the `IndexError` handler suppress the table. -/

structure AgentStep where
  tool : String
  tool_input : String
  log : String
  deriving DecidableEq

structure Response where
  output : String
  intermediate_steps : List (AgentStep × List Document)
  deriving DecidableEq

def render_intermediate_steps (index : Nat)
    (steps : List (Nat × List (AgentStep × List Document))) :
    List (AgentStep × List Document) :=
  ((steps.lookup index).getD []).filter (fun step => step.1.tool != "_Exception")

structure DisplayResult where
  outputShown : String
  sourcesTable : Option (List ResultRow)
  deriving DecidableEq

def display_chat_response (response : Response) : DisplayResult :=
  { outputShown := response.output
    sourcesTable :=
      match response.intermediate_steps with
      | [] => none
      | (_, sources) :: _ => some (format_search_results_as_dataframe sources) }

def exStepC4 : AgentStep :=
  { tool := "_Exception", tool_input := "", log := "Invalid or incomplete response" }

def docC4 : Document :=
  { page_content := "chunk"
    metadata := { title := some "Handbook", relevance_score := some (3 / 10) } }

/-- C4 (counterexample): a ToolInvocation named `"_Exception"` sitting
first in the intermediate-steps list is **not** excluded from citation
extraction: `display_chat_response` renders the sources table directly
from its payload, so the exception-path invocation contributes every
document of the displayed citation table. -/
theorem C4_exception_step_counterexample :
    exStepC4.tool = "_Exception" ∧
    (display_chat_response
        { output := "answer", intermediate_steps := [(exStepC4, [docC4])] }).sourcesTable =
      some [formatRow docC4] ∧
    some [formatRow docC4] ≠ (none : Option (List ResultRow)) := by
  refine ⟨rfl, rfl, ?_⟩
  decide

/-- C4 (amended): an invocation whose tool name is `"_Exception"` is
excluded from intermediate-step rendering, but citation extraction takes
the first intermediate step of the response unconditionally: its payload
is displayed as the sources table whatever its tool name is. -/
theorem C4_exception_step_amended (index : Nat)
    (steps : List (Nat × List (AgentStep × List Document))) :
    (∀ step ∈ render_intermediate_steps index steps, step.1.tool ≠ "_Exception") ∧
    (∀ (out : String) (first : AgentStep × List Document)
      (rest : List (AgentStep × List Document)),
      (display_chat_response { output := out, intermediate_steps := first :: rest }).sourcesTable =
        some (format_search_results_as_dataframe first.2)) := by
  constructor
  · intro step hmem
    unfold render_intermediate_steps at hmem
    have := (List.mem_filter.mp hmem).2
    simpa using this
  · intro out first rest
    cases first with
    | mk action sources => rfl

def kbStepC4 : AgentStep × List Document :=
  ({ tool := "Knowledge Base", tool_input := "q", log := "" }, [])

def stepsC4 : List (Nat × List (AgentStep × List Document)) :=
  [(0, [kbStepC4, (exStepC4, [])])]

/-- C4 (witness): with one `"Knowledge Base"` step and one `"_Exception"`
step recorded under index 0, the rendered list contains the former, and
it indeed has a non-exception tool name. -/
theorem C4_exception_step_amended_witness :
    kbStepC4 ∈ render_intermediate_steps 0 stepsC4 ∧
    kbStepC4.1.tool ≠ "_Exception" :=
  ⟨by decide, (C4_exception_step_amended 0 stepsC4).1 _ (by decide)⟩

/-- C6 (counterexample): when the retrieval tool returns zero Documents,
the first intermediate step is present with an empty payload, so
`display_chat_response` still renders a sources table — an empty one —
whereas the claim says no citation table is rendered. -/
theorem C6_zero_documents_counterexample :
    (display_chat_response
        { output := "No relevant passages were found."
          intermediate_steps :=
            [({ tool := "Knowledge Base", tool_input := "q", log := "" }, [])] }).sourcesTable =
      some [] ∧
    some ([] : List ResultRow) ≠ (none : Option (List ResultRow)) := by
  refine ⟨rfl, ?_⟩
  decide

/-- C6 (amended): zero retrieved Documents is handled as a valid outcome,
not a failure: the output text is displayed unchanged and the citation
table is rendered with zero rows; the table is suppressed (the
`IndexError` path) only when the agent recorded no intermediate step at
all. -/
theorem C6_zero_documents_amended (out : String) (action : AgentStep) :
    display_chat_response { output := out, intermediate_steps := [(action, [])] } =
      { outputShown := out, sourcesTable := some [] } ∧
    display_chat_response { output := out, intermediate_steps := [] } =
      { outputShown := out, sourcesTable := none } :=
  ⟨rfl, rfl⟩

end EduChatbot

namespace EduChatbot

/-! ## Retrieval pipeline (`chat_retrieval.py`, lines 16-35)

`retrieve_documents` wires a Pinecone retriever with `search_kwargs` k=100
into a `ContextualCompressionRetriever` whose compressor is `CohereRerank`
with top_n=20: the query fetches the top-100 nearest candidates, which the
reranker scores, orders by descending relevance and cuts to the top 20.

The two external services are modelled from their contracts in the
specification: the vector store is a parameter `search` (Vector Search
Client: query and k to an ordered candidate list), and the Cohere scoring
model is a parameter `relevance` (Reranker Client: each candidate gets a
relevance score in [0,1]). -/

def relOf (d : Document) : ℚ := d.metadata.relevance_score.getD 0

/-- `rerankGE a b` means document `a` is ranked at least as high as `b`:
its annotated relevance score is at least that of `b`. -/
def rerankGE (a b : Document) : Prop := relOf b ≤ relOf a

instance instDecRerankGE : DecidableRel rerankGE :=
  fun a b => inferInstanceAs (Decidable (relOf b ≤ relOf a))

instance instTotalRerankGE : IsTotal Document rerankGE :=
  ⟨fun a b => le_total (relOf b) (relOf a)⟩

instance instTransRerankGE : IsTrans Document rerankGE :=
  ⟨fun a b c hab hbc => le_trans hbc hab⟩

/-- Modelled from the spec: the Cohere reranking service (`CohereRerank`,
not part of this repository).  Per the Reranker Client contract it
annotates each candidate with a relevance score, returns them ordered by
descending relevance, and keeps at most `top_n`. -/
def cohereRerank (relevance : String → Document → ℚ) (top_n : Nat) (query : String)
    (documents : List Document) : List Document :=
  ((documents.map (fun d =>
      { d with metadata :=
          { d.metadata with relevance_score := some (relevance query d) } })).insertionSort
    rerankGE).take top_n

def retrieve_documents (search : String → Nat → List Document)
    (relevance : String → Document → ℚ) (query : String) : List Document :=
  cohereRerank relevance 20 query (search query 100)

/-- C1: for a non-empty query, the retrieval pipeline returns at most 20
documents, each annotated with a relevance score in [0,1], ordered by
descending relevance score, and it is exactly the rerank-to-top-20 of the
top-100 candidates fetched from the vector index. -/
theorem C1_retrieve_documents_spec (search : String → Nat → List Document)
    (relevance : String → Document → ℚ) (query : String)
    (hq : query ≠ "")
    (hrel : ∀ (q : String) (d : Document), 0 ≤ relevance q d ∧ relevance q d ≤ 1) :
    (retrieve_documents search relevance query).length ≤ 20 ∧
    (∀ d ∈ retrieve_documents search relevance query,
      ∃ s, d.metadata.relevance_score = some s ∧ 0 ≤ s ∧ s ≤ 1) ∧
    (retrieve_documents search relevance query).Sorted rerankGE ∧
    retrieve_documents search relevance query =
      cohereRerank relevance 20 query (search query 100) := by
  refine ⟨?_, ?_, ?_, rfl⟩
  · unfold retrieve_documents cohereRerank
    rw [List.length_take]
    exact min_le_left _ _
  · intro d hd
    unfold retrieve_documents cohereRerank at hd
    have h1 := List.mem_of_mem_take hd
    have h2 := (List.perm_insertionSort rerankGE _).mem_iff.mp h1
    obtain ⟨d0, hd0, rfl⟩ := List.mem_map.mp h2
    exact ⟨relevance query d0, rfl, (hrel query d0).1, (hrel query d0).2⟩
  · unfold retrieve_documents cohereRerank
    exact List.Pairwise.sublist (List.take_sublist _ _)
      (List.sorted_insertionSort rerankGE _)

def searchW : String → Nat → List Document := fun _ _ =>
  [{ page_content := "alpha", metadata := { title := some "A" } },
   { page_content := "beta", metadata := { title := some "B" } }]

def relevanceW : String → Document → ℚ := fun _ d =>
  if d.page_content = "alpha" then 1 / 2 else 1 / 4

/-- C1 (witness): the pipeline evaluated on a concrete two-document index
and a concrete bounded scoring model. -/
theorem C1_retrieve_documents_witness :
    ("What is FAFSA" : String) ≠ "" ∧
    ((retrieve_documents searchW relevanceW "What is FAFSA").length ≤ 20 ∧
     (∀ d ∈ retrieve_documents searchW relevanceW "What is FAFSA",
       ∃ s, d.metadata.relevance_score = some s ∧ 0 ≤ s ∧ s ≤ 1) ∧
     (retrieve_documents searchW relevanceW "What is FAFSA").Sorted rerankGE ∧
     retrieve_documents searchW relevanceW "What is FAFSA" =
       cohereRerank relevanceW 20 "What is FAFSA" (searchW "What is FAFSA" 100)) :=
  ⟨by decide,
   C1_retrieve_documents_spec searchW relevanceW "What is FAFSA" (by decide)
     (fun q d => by unfold relevanceW; split <;> norm_num)⟩

end EduChatbot

namespace EduChatbot

/-! ## Secrets and process start (`aws_secrets_initialization.py`)

The secrets manager is modelled as an association list from secret name to
its parsed JSON dict.  In `fetch_secret_value`, a failing
`get_secret_value` call (missing secret, network or auth error) is the
`none` lookup — the `except` block prints the error and returns `None` —
and a present secret whose dict lacks the key yields `secret_json.get(key)`,
again `None`.  The module-level code then assigns both API keys and simply
continues: no check, raise or exit follows a `None`. -/

def SESSION_TABLE_NAME : String := "SessionTable"

def SESSION_ID : String := "99"

def fetch_secret_value (secretsManager : List (String × List (String × String)))
    (secret_name key : String) : Option String :=
  match secretsManager.lookup secret_name with
  | none => none
  | some secret_json => secret_json.lookup key

structure StartupState where
  PINECONE_API_KEY : Option String
  COHERE_API_KEY : Option String
  serving : Bool
  deriving DecidableEq

/-- The module-level startup of `aws_secrets_initialization.py` (lines
57-60): fetch both API keys and finish loading; `serving := true` records
that the process proceeds to serve requests unconditionally. -/
def moduleStartup (secretsManager : List (String × List (String × String))) : StartupState :=
  { PINECONE_API_KEY := fetch_secret_value secretsManager "edu-app-secrets" "PINECONE_API_KEY"
    COHERE_API_KEY := fetch_secret_value secretsManager "policy-app-secrets" "COHERE_API_KEY"
    serving := true }

/-- C7 (counterexample): with no retrievable secrets at all, the Pinecone
key comes back absent and startup still proceeds to serve — absence of a
required secret is not startup-fatal in this code. -/
theorem C7_missing_secret_counterexample :
    fetch_secret_value [] "edu-app-secrets" "PINECONE_API_KEY" = none ∧
    (moduleStartup []).PINECONE_API_KEY = none ∧
    (moduleStartup []).serving = true :=
  ⟨rfl, rfl, rfl⟩

/-- C7 (amended): a required secret that cannot be retrieved yields `None`
(after logging) and the process still proceeds to serve requests; the
missing credential can only fail later, at first use. -/
theorem C7_missing_secret_amended (secretsManager : List (String × List (String × String)))
    (h : secretsManager.lookup "edu-app-secrets" = (none : Option (List (String × String)))) :
    (moduleStartup secretsManager).PINECONE_API_KEY = none ∧
    (moduleStartup secretsManager).serving = true := by
  constructor
  · show fetch_secret_value secretsManager "edu-app-secrets" "PINECONE_API_KEY" = none
    unfold fetch_secret_value
    rw [h]
  · rfl

/-- C7 (witness): the amended statement at the empty secrets manager. -/
theorem C7_missing_secret_amended_witness :
    ([] : List (String × List (String × String))).lookup "edu-app-secrets" =
      (none : Option (List (String × String))) ∧
    ((moduleStartup []).PINECONE_API_KEY = none ∧ (moduleStartup []).serving = true) :=
  ⟨rfl, C7_missing_secret_amended [] rfl⟩

/-! ## History store (`aws_secrets_initialization.py` line 39, `chat_st.py`)

`dynamodb_history = DynamoDBChatMessageHistory(table_name=SESSION_TABLE_NAME,
session_id=SESSION_ID, ...)` is constructed once, at module load, with the
constant `SESSION_ID = "99"`.  Every append through it therefore writes an
item under the DynamoDB partition key `"99"`, whatever per-visit uuid
`initialize_session_state` put into `st.session_state['session_id']`; that
uuid only travels inside the message (`id=` and `st_session_id=` kwargs). -/

inductive Role where
  | human
  | ai
  | system
  deriving DecidableEq

structure FeedbackMeta where
  timestamp : Nat
  face_feedback : Nat
  feedback_text : String
  score : Nat
  deriving DecidableEq

structure HistoryRecord where
  role : Role
  content : String
  msgId : String := ""
  stSessionId : Option String := none
  meta : Option FeedbackMeta := none
  deriving DecidableEq

abbrev HistoryStore := List (String × HistoryRecord)

def dynamodbAppend (store : HistoryStore) (record : HistoryRecord) : HistoryStore :=
  store ++ [(SESSION_ID, record)]

/-- `dynamodb_history.add_user_message(HumanMessage(id=session_id, content=prompt))`
(`chat_st.py` line 176). -/
def add_user_message (store : HistoryStore) (sessionId prompt : String) : HistoryStore :=
  dynamodbAppend store { role := .human, content := prompt, msgId := sessionId }

/-- `dynamodb_history.add_ai_message(AIMessage(id=session_id, content=response["output"]))`
(`chat_st.py` line 182). -/
def add_ai_message (store : HistoryStore) (sessionId output : String) : HistoryStore :=
  dynamodbAppend store { role := .ai, content := output, msgId := sessionId }

/-- C2 (code bug): two distinct user sessions appending a message each are
both stored under the same constant history key `"99"` — the per-visit
uuid never reaches the partition key, so records of distinct sessions land
in one shared log. -/
theorem C2_history_key_not_per_session :
    (add_user_message [] "session-A" "hello").map Prod.fst = [SESSION_ID] ∧
    (add_user_message [] "session-B" "hello").map Prod.fst = [SESSION_ID] ∧
    SESSION_ID = "99" ∧
    ("session-A" : String) ≠ "session-B" := by
  refine ⟨rfl, rfl, rfl, ?_⟩
  decide

end EduChatbot

namespace EduChatbot

/-! ## Prompt handling, reset, and feedback (`chat_st.py`, lines 148-208) -/

structure PromptResult where
  store : HistoryStore
  errorShown : Bool
  feedback_form : Bool
  displayed : Option DisplayResult
  deriving DecidableEq

/-- The prompt-handling block of `run_chat_interface` (lines 174-183).
The user message is recorded to the history store immediately at
submission; then the agent runs — `execute_chat_agent` (lines 99-122)
returns `None` after showing an error when the agent raised — and only a
truthy response is displayed, recorded as an AI message, and opens the
feedback form; `feedbackFormPrev` is the pre-existing form flag, left
untouched on failure. -/
def handle_user_prompt (store : HistoryStore) (sessionId prompt : String)
    (agentResult : Option Response) (feedbackFormPrev : Bool) : PromptResult :=
  let store1 := add_user_message store sessionId prompt
  match agentResult with
  | none =>
    { store := store1
      errorShown := true
      feedback_form := feedbackFormPrev
      displayed := none }
  | some response =>
    { store := add_ai_message store1 sessionId response.output
      errorShown := false
      feedback_form := true
      displayed := some (display_chat_response response) }

/-- C5: when the agent fails on a submission, an error is surfaced, no
agent response is displayed or recorded, and the resulting history is
exactly the prior history — uncorrupted — followed by the user message
that was recorded at submission, before the agent ran. -/
theorem C5_agent_failure_spec (store : HistoryStore) (sessionId prompt : String) (prev : Bool) :
    (handle_user_prompt store sessionId prompt none prev).store =
      store ++ [(SESSION_ID, { role := .human, content := prompt, msgId := sessionId })] ∧
    (handle_user_prompt store sessionId prompt none prev).errorShown = true ∧
    (handle_user_prompt store sessionId prompt none prev).displayed = none :=
  ⟨rfl, rfl, rfl⟩

structure LocalChatState where
  msgs : List (Role × String)
  steps : List (Nat × List (AgentStep × List Document))
  deriving DecidableEq

structure AppState where
  localState : LocalChatState
  store : HistoryStore
  deriving DecidableEq

/-- The reset branch of `run_chat_interface` (lines 162-164):
`msgs.clear()` empties the Streamlit message history and
`st.session_state['steps'] = {}` empties the recorded intermediate-steps
map; nothing touches `dynamodb_history`. -/
def resetChatHistory (s : AppState) : AppState :=
  { s with localState := { msgs := [], steps := [] } }

/-- C8: resetting clears only local conversation state — the in-memory
message list and the intermediate-steps map — and leaves every persisted
history-store record unchanged. -/
theorem C8_reset_spec (s : AppState) :
    (resetChatHistory s).store = s.store ∧
    (resetChatHistory s).localState.msgs = [] ∧
    (resetChatHistory s).localState.steps = [] :=
  ⟨rfl, rfl, rfl⟩

inductive WriteOutcome where
  | success
  | failure (err : String)
  deriving DecidableEq

/-- `handle_feedback` (lines 30-55): builds the feedback `SystemMessage`
(id `"1"`, content `"feedback"`, the Streamlit session id and the rating,
comment and timestamp in `response_metadata`) and appends it through
`dynamodb_history`.  A raising write is caught inside the function: the
store is left as it was and an error message is shown; a succeeding write
shows a thank-you message.  Neither path retries.  Returns the store, the
success message and the error message. -/
def handle_feedback (store : HistoryStore) (sessionId : String) (value : Nat) (text : String)
    (timestamp : Nat) : WriteOutcome → HistoryStore × Option String × Option String
  | .success =>
    (dynamodbAppend store
      { role := .system
        content := "feedback"
        msgId := "1"
        stSessionId := some sessionId
        meta := some
          { timestamp := timestamp, face_feedback := value, feedback_text := text
            score := value } },
     some "Thank you for your feedback!", none)
  | .failure err =>
    (store, none, some ("An error occurred while handling feedback: " ++ err))

structure FeedbackSubmitResult where
  store : HistoryStore
  successShown : Option String
  errorShown : Option String
  feedback_form : Bool
  deriving DecidableEq

/-- The submit branch of the feedback form (lines 203-208): the widget
values are copied into session state, `handle_feedback` runs, and then
`st.session_state["feedback_form"] = False` closes the form — this line
runs unconditionally, since `handle_feedback` catches its own errors. -/
def submitFeedback (store : HistoryStore) (sessionId : String) (value : Nat) (text : String)
    (timestamp : Nat) (w : WriteOutcome) : FeedbackSubmitResult :=
  let r := handle_feedback store sessionId value text timestamp w
  { store := r.1
    successShown := r.2.1
    errorShown := r.2.2
    feedback_form := false }

/-- C10: after the submit button is pressed the feedback form is closed
whatever the history write did; a failed write leaves the store unchanged
and reports an error — the single attempt is lost — while a successful
write appends exactly one feedback record. -/
theorem C10_feedback_submit_spec (store : HistoryStore) (sessionId : String) (value : Nat)
    (text : String) (timestamp : Nat) :
    (∀ w : WriteOutcome,
      (submitFeedback store sessionId value text timestamp w).feedback_form = false) ∧
    (∀ err : String,
      (submitFeedback store sessionId value text timestamp (.failure err)).store = store ∧
      (submitFeedback store sessionId value text timestamp (.failure err)).errorShown =
        some ("An error occurred while handling feedback: " ++ err)) ∧
    (submitFeedback store sessionId value text timestamp .success).store =
      store ++ [(SESSION_ID,
        { role := .system
          content := "feedback"
          msgId := "1"
          stSessionId := some sessionId
          meta := some
            { timestamp := timestamp, face_feedback := value, feedback_text := text
              score := value } })] := by
  refine ⟨?_, ?_, rfl⟩
  · intro w
    cases w <;> rfl
  · intro err
    exact ⟨rfl, rfl⟩

end EduChatbot
